import Mathlib

/-
Verification of the truboxing-ppv repository (src/app.py, src/timezone_utils.py).

Shallow embedding conventions:
- The SQLite tables `tokens`, `device_access`, `email_tokens` become lists of
  rows; row order is unobservable except through ORDER BY, which only the
  admin-logs page uses (modelled by an explicit sort).
- Timezone-aware datetimes become Nat timestamps (seconds).  Asia/Kuala_Lumpur
  has no DST, so `datetime + timedelta(days=d)` is plain addition of d*86400
  seconds, and the `generate_expiry`/`parse_expiry` ISO round trip is the
  identity on instants.
- `hashlib.sha256(raw.encode()).hexdigest()` is embedded as a full executable
  SHA-256 (FIPS 180-4) over UTF-8 bytes, bytes and 32-bit words as Nat with
  explicit truncation.
- HTTP query/form/header values are passed as String arguments (missing value
  = ""), JSON bodies as Option of a record with Option String fields (absent
  or unparsable JSON body = none, as produced by get_json(silent=True) or {}).
- External collaborators (ToyyibPay, MUX, Brevo) are inputs: the MUX
  "create live stream" call outcome is a parameter of the callback route.
- A route handler is a pure function from the database (and its inputs) to a
  response and the new database.  Routes that only read return the response.
-/

/- ======================= SHA-256 (FIPS 180-4) ======================= -/

def w32 (x : Nat) : Nat := x % 4294967296

def rotr32 (n x : Nat) : Nat := w32 ((x >>> n) ||| (x <<< (32 - n)))

def bigS0 (x : Nat) : Nat := (rotr32 2 x) ^^^ (rotr32 13 x) ^^^ (rotr32 22 x)

def bigS1 (x : Nat) : Nat := (rotr32 6 x) ^^^ (rotr32 11 x) ^^^ (rotr32 25 x)

def smallS0 (x : Nat) : Nat := (rotr32 7 x) ^^^ (rotr32 18 x) ^^^ (x >>> 3)

def smallS1 (x : Nat) : Nat := (rotr32 17 x) ^^^ (rotr32 19 x) ^^^ (x >>> 10)

def chF (x y z : Nat) : Nat := (x &&& y) ^^^ ((x ^^^ 4294967295) &&& z)

def majF (x y z : Nat) : Nat := (x &&& y) ^^^ (x &&& z) ^^^ (y &&& z)

def K256 : List Nat :=
  [1116352408, 1899447441, 3049323471, 3921009573,
   961987163, 1508970993, 2453635748, 2870763221,
   3624381080, 310598401, 607225278, 1426881987,
   1925078388, 2162078206, 2614888103, 3248222580,
   3835390401, 4022224774, 264347078, 604807628,
   770255983, 1249150122, 1555081692, 1996064986,
   2554220882, 2821834349, 2952996808, 3210313671,
   3336571891, 3584528711, 113926993, 338241895,
   666307205, 773529912, 1294757372, 1396182291,
   1695183700, 1986661051, 2177026350, 2456956037,
   2730485921, 2820302411, 3259730800, 3345764771,
   3516065817, 3600352804, 4094571909, 275423344,
   430227734, 506948616, 659060556, 883997877,
   958139571, 1322822218, 1537002063, 1747873779,
   1955562222, 2024104815, 2227730452, 2361852424,
   2428436474, 2756734187, 3204031479, 3329325298]

structure H8 where
  a : Nat
  b : Nat
  c : Nat
  d : Nat
  e : Nat
  f : Nat
  g : Nat
  h : Nat

def initH : H8 :=
  ⟨1779033703, 3144134277, 1013904242, 2773480762, 1359893119, 2600822924, 528734635, 1541459225⟩

def natToBytesBE (numBytes x : Nat) : List Nat :=
  (List.range numBytes).map (fun i => (x >>> (8 * (numBytes - 1 - i))) % 256)

def padBytes (msg : List Nat) : List Nat :=
  let L := msg.length
  let k := (119 - L % 64) % 64
  msg ++ [128] ++ List.replicate k 0 ++ natToBytesBE 8 ((8 * L) % 18446744073709551616)

def wordAt (bs : List Nat) (i : Nat) : Nat :=
  (bs.getD (4 * i) 0) * 16777216 + (bs.getD (4 * i + 1) 0) * 65536 +
    (bs.getD (4 * i + 2) 0) * 256 + bs.getD (4 * i + 3) 0

def schedule (block : List Nat) : List Nat :=
  let w0 := (List.range 16).map (wordAt block)
  (List.range 48).foldl
    (fun w _ =>
      let i := w.length
      w ++ [w32 (smallS1 (w.getD (i - 2) 0) + w.getD (i - 7) 0 +
                 smallS0 (w.getD (i - 15) 0) + w.getD (i - 16) 0)])
    w0

def compressWord (st : H8) (kw : Nat × Nat) : H8 :=
  let t1 := w32 (st.h + bigS1 st.e + chF st.e st.f st.g + kw.1 + kw.2)
  let t2 := w32 (bigS0 st.a + majF st.a st.b st.c)
  ⟨w32 (t1 + t2), st.a, st.b, st.c, w32 (st.d + t1), st.e, st.f, st.g⟩

def compressBlock (st : H8) (block : List Nat) : H8 :=
  let ws := schedule block
  let fin := (K256.zip ws).foldl compressWord st
  ⟨w32 (st.a + fin.a), w32 (st.b + fin.b), w32 (st.c + fin.c), w32 (st.d + fin.d),
   w32 (st.e + fin.e), w32 (st.f + fin.f), w32 (st.g + fin.g), w32 (st.h + fin.h)⟩

def sha256Bytes (msg : List Nat) : List Nat :=
  let padded := padBytes msg
  let blocks := (List.range (padded.length / 64)).map (fun i => (padded.drop (64 * i)).take 64)
  let fin := blocks.foldl compressBlock initH
  natToBytesBE 4 fin.a ++ natToBytesBE 4 fin.b ++ natToBytesBE 4 fin.c ++ natToBytesBE 4 fin.d ++
    natToBytesBE 4 fin.e ++ natToBytesBE 4 fin.f ++ natToBytesBE 4 fin.g ++ natToBytesBE 4 fin.h

def utf8EncodeChar (c : Char) : List Nat :=
  let n := c.toNat
  if n < 128 then [n]
  else if n < 2048 then [192 + n / 64, 128 + n % 64]
  else if n < 65536 then [224 + n / 4096, 128 + (n / 64) % 64, 128 + n % 64]
  else [240 + n / 262144, 128 + (n / 4096) % 64, 128 + (n / 64) % 64, 128 + n % 64]

def strBytes (s : String) : List Nat := (s.data.map utf8EncodeChar).flatten

def hexDigitChar (n : Nat) : Char := if n < 10 then Char.ofNat (48 + n) else Char.ofNat (87 + n)

def bytesToHex (bs : List Nat) : String :=
  String.mk ((bs.map (fun b => [hexDigitChar (b / 16), hexDigitChar (b % 16)])).flatten)

def sha256hex (s : String) : String := bytesToHex (sha256Bytes (strBytes s))

/- ======================= Data model (DB Setup, app.py init_db) ======================= -/

structure TokenRow where
  token : String
  email : String
  expires_at : Nat
  playback_id : Option String
  stream_key : Option String
deriving DecidableEq

structure DeviceRow where
  token : String
  device_hash : String
  ip : String
  user_agent : String
  screen_size : String
  timezone : String
  timestamp : Nat
deriving DecidableEq

structure DB where
  tokens : List TokenRow
  device_access : List DeviceRow
  email_tokens : List (String × String)
deriving DecidableEq

def initDB : DB := ⟨[], [], []⟩

/-- Python str.strip(): drop leading and trailing whitespace. -/
def pyStrip (s : String) : String :=
  String.mk (((s.data.dropWhile Char.isWhitespace).reverse.dropWhile Char.isWhitespace).reverse)

/-- SELECT ... FROM tokens WHERE token = ? (token is the PRIMARY KEY). -/
def lookupToken (db : DB) (t : String) : Option TokenRow :=
  db.tokens.find? (fun r => r.token == t)

/-- SELECT 1 FROM device_access WHERE token = ? AND device_hash = ? (existence). -/
def deviceRecordedL (l : List DeviceRow) (t h : String) : Bool :=
  l.any (fun r => r.token == t && r.device_hash == h)

def deviceRecorded (db : DB) (t h : String) : Bool := deviceRecordedL db.device_access t h

def hashesFor (l : List DeviceRow) (t : String) : List String :=
  (l.filter (fun r => r.token == t)).map (fun r => r.device_hash)

/-- SELECT COUNT(DISTINCT device_hash) FROM device_access WHERE token = ?. -/
def countD (l : List DeviceRow) (t : String) : Nat := (hashesFor l t).toFinset.card

def countDistinctDevices (db : DB) (t : String) : Nat := countD db.device_access t

/-- INSERT OR REPLACE INTO email_tokens (email PRIMARY KEY). -/
def emailUpsert (l : List (String × String)) (e t : String) : List (String × String) :=
  l.filter (fun p => p.1 != e) ++ [(e, t)]

/-- SELECT token FROM email_tokens WHERE email = ?. -/
def lookupEmailToken (l : List (String × String)) (e : String) : Option String :=
  (l.find? (fun p => p.1 == e)).map Prod.snd

/- ======================= Clock (timezone_utils.py) ======================= -/

/-- generate_expiry(days): (get_now() + timedelta(days=days)).isoformat(); instants as seconds. -/
def generate_expiry (days now : Nat) : Nat := now + days * 86400

/- ======================= Config / collaborators ======================= -/

/-- Environment configuration read at startup in app.py.  muxConfigured models
MUX_TOKEN_ID and MUX_TOKEN_SECRET and the mux_python SDK all being present. -/
structure Config where
  FIXED_PLAYBACK_ID : String
  muxConfigured : Bool
  ADMIN_TOKEN : String
deriving DecidableEq

/-- Outcome of the outbound MUX create_live_stream call (an external collaborator). -/
inductive MuxOutcome where
  | success (playback_id stream_key : String)
  | apiError
deriving DecidableEq

/-- create_mux_stream_if_needed in app.py: fixed playback id short-circuits; missing
configuration or a MuxApiException falls back to the placeholder ("abc123", None). -/
def create_mux_stream_if_needed (cfg : Config) (call : MuxOutcome) : String × Option String :=
  if cfg.FIXED_PLAYBACK_ID ≠ "" then (cfg.FIXED_PLAYBACK_ID, none)
  else if cfg.muxConfigured = false then ("abc123", none)
  else
    match call with
    | .success p k => (p, some k)
    | .apiError => ("abc123", none)

/- ======================= Payment callback route ======================= -/

/-- Fields of the ToyyibPay callback payload used by payment_callback. -/
structure CallbackData where
  status : Option String
  status_id : Option String
  order_id : Option String
deriving DecidableEq

/-- Python `data.get("status") or data.get("status_id")` (missing key and "" are falsy). -/
def pyOrOpt (a b : Option String) : Option String :=
  match a with
  | none => b
  | some s => if s = "" then b else some s

/-- Python `order_id[4:] if order_id and order_id.startswith("TRX-") else None`.
"" is falsy and does not start with "TRX-", so the truthiness test is absorbed. -/
def callbackEmail (order_id : Option String) : Option String :=
  match order_id with
  | none => none
  | some oid =>
    match oid.data with
    | 'T' :: 'R' :: 'X' :: '-' :: rest => some (String.mk rest)
    | _ => none

inductive CallbackResult where
  | badPayload                 -- 400 "Payment not successful or email missing"
  | okIssued (token : String)  -- 200 "OK"
  | integrityError             -- duplicate PRIMARY KEY: sqlite raises, transaction rolls back
deriving DecidableEq

/-- payment_callback in app.py.  freshToken models uuid.uuid4().hex[:8]; mux models the
outcome of the external MUX call; now models get_now(). -/
def payment_callback (cfg : Config) (db : DB) (now : Nat) (freshToken : String)
    (mux : MuxOutcome) (data : CallbackData) : CallbackResult × DB :=
  let status := pyOrOpt data.status data.status_id
  match callbackEmail data.order_id with
  | none => (.badPayload, db)
  | some email =>
    if status ≠ some "1" ∨ email = "" then (.badPayload, db)
    else
      let ms := create_mux_stream_if_needed cfg mux
      if (lookupToken db freshToken).isSome then (.integrityError, db)
      else
        (.okIssued freshToken,
         { db with
             tokens := db.tokens ++
               [{ token := freshToken, email := email, expires_at := generate_expiry 7 now,
                  playback_id := some ms.1, stream_key := ms.2 }],
             email_tokens := emailUpsert db.email_tokens email freshToken })

/- ======================= Watch route ======================= -/

inductive WatchResult where
  | invalidToken                                    -- 403 "Invalid token"
  | expired                                         -- 403 "Token expired"
  | render (playback_url : String) (token : String) -- render_template("watch.html", ...)
deriving DecidableEq

/-- Python `row[3] or "abc123"` on a nullable TEXT column. -/
def pyStrOr (v : Option String) (dflt : String) : String :=
  match v with
  | none => dflt
  | some s => if s = "" then dflt else s

/-- watch in app.py (GET /watch/<token>). -/
def watch (db : DB) (now : Nat) (token : String) : WatchResult :=
  match lookupToken db token with
  | none => .invalidToken
  | some row =>
    if row.expires_at < now then .expired
    else .render ("https://stream.mux.com/" ++ pyStrOr row.playback_id "abc123" ++ ".m3u8") token

/- ======================= Verify route ======================= -/

inductive VerifyResult where
  | noToken                         -- 400 "No token provided"
  | missingDeviceId                 -- 400 "Missing device id" (GET shape)
  | invalidToken                    -- 403 "Invalid token"
  | expired                         -- 403 "Token expired" (POST shape)
  | okStatus                        -- 200 status ok (GET shape)
  | locked                          -- 403 "Token locked to another device."
  | okIdentity (identity : String)  -- 200 status ok with identity (POST shape)
deriving DecidableEq

/-- GET /verify?v=...&id=... — the recheck shape of verify in app.py. -/
def verifyGet (db : DB) (v idParam : String) : VerifyResult :=
  let token := (pyStrip v)
  if token = "" then .noToken
  else
    let identity := (pyStrip idParam)
    if identity = "" then .missingDeviceId
    else
      match lookupToken db token with
      | none => .invalidToken
      | some _ => if deviceRecorded db token identity then .okStatus else .locked

/-- JSON body of POST /verify; a field is none when absent (or null). -/
structure PostBody where
  userAgent : Option String
  screenSize : Option String
  timezone : Option String
deriving DecidableEq

/-- safe_get in app.py: (d or {}).get(key, "") or "". -/
def safe_get (body : Option PostBody) (field : PostBody → Option String) : String :=
  match body with
  | none => ""
  | some b =>
    match field b with
    | none => ""
    | some s => s

/-- raw = f-string ip|ua|ss|tz in verify (POST shape). -/
def rawFingerprint (ip ua ss tz : String) : String :=
  ip ++ "|" ++ ua ++ "|" ++ ss ++ "|" ++ tz

/-- device_hash = hashlib.sha256(raw.encode()).hexdigest(). -/
def deviceHash (ip ua ss tz : String) : String := sha256hex (rawFingerprint ip ua ss tz)

/-- POST /verify?v=... — the register-or-verify shape of verify in app.py.
userIp models the X-Real-IP / X-Forwarded-For / remote_addr resolution. -/
def verifyPost (db : DB) (now : Nat) (v userIp : String) (body : Option PostBody) :
    VerifyResult × DB :=
  let token := (pyStrip v)
  if token = "" then (.noToken, db)
  else
    let ua := safe_get body PostBody.userAgent
    let ss := safe_get body PostBody.screenSize
    let tz := safe_get body PostBody.timezone
    let device_hash := deviceHash userIp ua ss tz
    match lookupToken db token with
    | none => (.invalidToken, db)
    | some row =>
      if row.expires_at < now then (.expired, db)
      else if deviceRecorded db token device_hash then (.okIdentity device_hash, db)
      else if 2 ≤ countDistinctDevices db token then (.locked, db)
      else
        (.okIdentity device_hash,
         { db with device_access := db.device_access ++
             [{ token := token, device_hash := device_hash, ip := userIp, user_agent := ua,
                screen_size := ss, timezone := tz, timestamp := now }] })

/- ======================= Resume route ======================= -/

/-- generate_token_redirect (GET /generate-token): some t means redirect to /watch/t,
none means render thank_you.html. -/
def generate_token_redirect (db : DB) (emailParam : String) : Option String :=
  let email := (pyStrip emailParam)
  if email = "" then none
  else
    match lookupEmailToken db.email_tokens email with
    | none => none
    | some t => if t = "" then none else some t

/- ======================= Admin routes ======================= -/

inductive AdminResult where
  | forbidden (msg : String)      -- abort(403, ...)
  | badRequest                    -- 400 "token/device required"
  | logs (rows : List DeviceRow)  -- render_template("admin_logs.html", ...)
  | kicked                        -- "Device kicked"
  | added                         -- "Device added"
  | atCeiling                     -- 403 "Already at 2 devices."
deriving DecidableEq

/-- admin_guard in app.py: some msg means abort(403, msg); none means the guard passes. -/
def admin_guard (cfg : Config) (hdr : String) : Option String :=
  if cfg.ADMIN_TOKEN = "" then some "Admin disabled: missing ADMIN_TOKEN"
  else if hdr ≠ cfg.ADMIN_TOKEN then some "Forbidden"
  else none

def insertByTs (r : DeviceRow) : List DeviceRow → List DeviceRow
  | [] => [r]
  | x :: xs => if x.timestamp ≤ r.timestamp then r :: x :: xs else x :: insertByTs r xs

/-- ORDER BY timestamp DESC (insertion sort; ties in unspecified order, as in SQLite). -/
def sortByTsDesc (l : List DeviceRow) : List DeviceRow := l.foldr insertByTs []

/-- GET /admin/logs. -/
def admin_logs (cfg : Config) (db : DB) (hdr : String) : AdminResult :=
  match admin_guard cfg hdr with
  | some m => .forbidden m
  | none => .logs (sortByTsDesc db.device_access)

/-- POST /admin/kick. -/
def admin_kick (cfg : Config) (db : DB) (hdr tokenForm deviceForm : String) :
    AdminResult × DB :=
  match admin_guard cfg hdr with
  | some m => (.forbidden m, db)
  | none =>
    let token := (pyStrip tokenForm)
    let device := (pyStrip deviceForm)
    if token = "" ∨ device = "" then (.badRequest, db)
    else
      (.kicked,
       { db with device_access :=
           db.device_access.filter (fun r => !(r.token == token && r.device_hash == device)) })

/-- POST /admin/add-device.  The final INSERT OR IGNORE is a no-op when the
(token, device_hash) pair already exists (UNIQUE constraint). -/
def admin_add_device (cfg : Config) (db : DB) (now : Nat) (hdr tokenForm deviceForm : String) :
    AdminResult × DB :=
  match admin_guard cfg hdr with
  | some m => (.forbidden m, db)
  | none =>
    let token := (pyStrip tokenForm)
    let device := (pyStrip deviceForm)
    if token = "" ∨ device = "" then (.badRequest, db)
    else if 2 ≤ countDistinctDevices db token then (.atCeiling, db)
    else if deviceRecorded db token device then (.added, db)
    else
      (.added,
       { db with device_access := db.device_access ++
           [{ token := token, device_hash := device, ip := "admin", user_agent := "",
              screen_size := "", timezone := "", timestamp := now }] })

/- ======================= Whole-app step machine ======================= -/

/-- One inbound request to any route of app.py that can touch the database. -/
inductive Op where
  | callbackReq (now : Nat) (freshToken : String) (mux : MuxOutcome) (data : CallbackData)
  | watchReq (now : Nat) (token : String)
  | verifyGetReq (v idParam : String)
  | verifyPostReq (now : Nat) (v userIp : String) (body : Option PostBody)
  | resumeReq (email : String)
  | adminLogsReq (hdr : String)
  | adminKickReq (hdr tokenForm deviceForm : String)
  | adminAddReq (now : Nat) (hdr tokenForm deviceForm : String)

/-- Database after handling one request (read-only routes leave it unchanged). -/
def step (cfg : Config) (db : DB) : Op → DB
  | .callbackReq now ft mux data => (payment_callback cfg db now ft mux data).2
  | .watchReq _ _ => db
  | .verifyGetReq _ _ => db
  | .verifyPostReq now v ip body => (verifyPost db now v ip body).2
  | .resumeReq _ => db
  | .adminLogsReq _ => db
  | .adminKickReq hdr t d => (admin_kick cfg db hdr t d).2
  | .adminAddReq now hdr t d => (admin_add_device cfg db now hdr t d).2

/-- Database reached from a fresh deployment by a sequence of requests. -/
def runOps (cfg : Config) (ops : List Op) : DB := ops.foldl (step cfg) initDB

/-- The two routes whose handler contains an INSERT into device_access. -/
def mayInsertDevice : Op → Bool
  | .verifyPostReq _ _ _ _ => true
  | .adminAddReq _ _ _ _ => true
  | _ => false

def isCallbackOp : Op → Bool
  | .callbackReq _ _ _ _ => true
  | _ => false

/- ======================= Concrete fixtures for witnesses ======================= -/

def tokRow1 : TokenRow :=
  { token := "tok1", email := "a@b", expires_at := 100, playback_id := some "pid", stream_key := none }

def devRow1 : DeviceRow :=
  { token := "tok1", device_hash := "dev1", ip := "1.2.3.4", user_agent := "UA",
    screen_size := "SS", timezone := "TZ", timestamp := 50 }

/-- A store holding one token that expires at t=100 with one admitted device. -/
def expiredDB : DB := { tokens := [tokRow1], device_access := [devRow1], email_tokens := [("a@b", "tok1")] }

def devRowA : DeviceRow :=
  { token := "t", device_hash := "d1", ip := "ip1", user_agent := "", screen_size := "",
    timezone := "", timestamp := 1 }

def devRowB : DeviceRow :=
  { token := "t", device_hash := "d2", ip := "ip2", user_agent := "", screen_size := "",
    timezone := "", timestamp := 2 }

def tokRowT : TokenRow :=
  { token := "t", email := "e@x", expires_at := 1000, playback_id := some "pid", stream_key := none }

/-- A store whose token "t" is live and already at the two-device ceiling. -/
def dbTwo : DB := { tokens := [tokRowT], device_access := [devRowA, devRowB], email_tokens := [] }

def bodyKL : PostBody :=
  { userAgent := some "UA1", screenSize := some "1920x1080", timezone := some "Asia/Kuala_Lumpur" }

def devRowKL : DeviceRow :=
  { token := "t", device_hash := deviceHash "1.2.3.4" "UA1" "1920x1080" "Asia/Kuala_Lumpur",
    ip := "1.2.3.4", user_agent := "UA1", screen_size := "1920x1080",
    timezone := "Asia/Kuala_Lumpur", timestamp := 3 }

/-- A store whose token "t" is live with one admitted fingerprint (the KL device). -/
def dbKL : DB := { tokens := [tokRowT], device_access := [devRowKL], email_tokens := [] }

def cfgNone : Config := { FIXED_PLAYBACK_ID := "", muxConfigured := false, ADMIN_TOKEN := "" }

def cfgMux : Config := { FIXED_PLAYBACK_ID := "", muxConfigured := true, ADMIN_TOKEN := "" }

def cfgAdm : Config := { FIXED_PLAYBACK_ID := "", muxConfigured := false, ADMIN_TOKEN := "secret" }

def dataOk : CallbackData := { status := some "1", status_id := none, order_id := some "TRX-buyer@x.com" }

def dataFail : CallbackData := { status := some "0", status_id := none, order_id := some "TRX-buyer@x.com" }

/- ======================= Helpers for fingerprint analysis ======================= -/

/-- Big-endian numeric value of a byte list (used to compare hash outputs). -/
def bytesVal : List Nat → Nat
  | [] => 0
  | b :: bs => b * 256 ^ bs.length + bytesVal bs

/-- A family of pairwise distinct sourceAddress strings. -/
def ipRep (n : Nat) : String := String.mk (List.replicate n 'a')

def tokRowNoPid : TokenRow :=
  { token := "tk", email := "e", expires_at := 500, playback_id := none, stream_key := none }

/-- A store holding one live token whose stored playback_id is NULL. -/
def dbNoPid : DB := { tokens := [tokRowNoPid], device_access := [], email_tokens := [] }

/- ======================= Validation of the SHA-256 embedding ======================= -/

set_option maxRecDepth 40000 in
theorem sha256hex_test_vector_abc :
    sha256hex "abc" = "ba7816bf8f01cfea414140de5dae2223b00361a396177a9cb410ff61f20015ad" := by
  decide

set_option maxRecDepth 40000 in
theorem sha256hex_test_vector_empty :
    sha256hex "" = "e3b0c44298fc1c149afbf4c8996fb92427ae41e4649b934ca495991b7852b855" := by
  decide

/- ======================= Device-count lemmas ======================= -/

theorem hashesFor_append (l : List DeviceRow) (r : DeviceRow) (t : String) :
    hashesFor (l ++ [r]) t
      = hashesFor l t ++ (if r.token == t then [r.device_hash] else []) := by
  simp only [hashesFor, List.filter_append]
  cases h : (r.token == t) <;> simp [h]

theorem countD_append_le (l : List DeviceRow) (r : DeviceRow) (t : String) :
    countD (l ++ [r]) t ≤ countD l t + 1 := by
  rw [countD, hashesFor_append]
  cases h : (r.token == t)
  · rw [if_neg (by simp), List.append_nil]
    exact Nat.le_succ _
  · rw [if_pos rfl, List.toFinset_append]
    calc ((hashesFor l t).toFinset ∪ [r.device_hash].toFinset).card
        ≤ (hashesFor l t).toFinset.card + [r.device_hash].toFinset.card :=
          Finset.card_union_le _ _
      _ ≤ countD l t + 1 := by simp [countD]

theorem countD_append_ne (l : List DeviceRow) (r : DeviceRow) (t : String)
    (h : (r.token == t) = false) : countD (l ++ [r]) t = countD l t := by
  rw [countD, hashesFor_append, h]
  simp [countD]

theorem countD_sublist (l₁ l₂ : List DeviceRow) (t : String) (h : l₁.Sublist l₂) :
    countD l₁ t ≤ countD l₂ t := by
  apply Finset.card_le_card
  intro x hx
  rw [List.mem_toFinset] at hx ⊢
  simp only [hashesFor] at hx ⊢
  exact ((h.filter _).map _).subset hx

theorem countD_nil (t : String) : countD [] t = 0 := by
  simp [countD, hashesFor]

/- ======================= Recorded-device lemmas ======================= -/

theorem not_mem_hashesFor (l : List DeviceRow) (t x : String)
    (hrec : deviceRecordedL l t x = false) : x ∉ hashesFor l t := by
  intro hmem
  simp only [hashesFor, List.mem_map, List.mem_filter] at hmem
  obtain ⟨r, ⟨hrl, ht⟩, hh⟩ := hmem
  have htrue : deviceRecordedL l t x = true := by
    simp only [deviceRecordedL, List.any_eq_true]
    refine ⟨r, hrl, ?_⟩
    simp [ht, hh]
  rw [htrue] at hrec
  cases hrec

theorem deviceRecordedL_append_self (l : List DeviceRow) (r : DeviceRow) :
    deviceRecordedL (l ++ [r]) r.token r.device_hash = true := by
  simp [deviceRecordedL]

/- ======================= verifyPost case analysis ======================= -/

theorem verifyPost_cases (db : DB) (now : Nat) (v ip : String) (body : Option PostBody) :
    ((pyStrip v) = "" ∧ verifyPost db now v ip body = (.noToken, db))
  ∨ ((pyStrip v) ≠ "" ∧ lookupToken db (pyStrip v) = none
      ∧ verifyPost db now v ip body = (.invalidToken, db))
  ∨ (∃ row, (pyStrip v) ≠ "" ∧ lookupToken db (pyStrip v) = some row ∧ row.expires_at < now
      ∧ verifyPost db now v ip body = (.expired, db))
  ∨ (∃ row, (pyStrip v) ≠ "" ∧ lookupToken db (pyStrip v) = some row ∧ ¬ row.expires_at < now
      ∧ deviceRecorded db (pyStrip v) (deviceHash ip (safe_get body PostBody.userAgent)
          (safe_get body PostBody.screenSize) (safe_get body PostBody.timezone)) = true
      ∧ verifyPost db now v ip body =
          (.okIdentity (deviceHash ip (safe_get body PostBody.userAgent)
            (safe_get body PostBody.screenSize) (safe_get body PostBody.timezone)), db))
  ∨ (∃ row, (pyStrip v) ≠ "" ∧ lookupToken db (pyStrip v) = some row ∧ ¬ row.expires_at < now
      ∧ deviceRecorded db (pyStrip v) (deviceHash ip (safe_get body PostBody.userAgent)
          (safe_get body PostBody.screenSize) (safe_get body PostBody.timezone)) = false
      ∧ 2 ≤ countDistinctDevices db (pyStrip v)
      ∧ verifyPost db now v ip body = (.locked, db))
  ∨ (∃ row, (pyStrip v) ≠ "" ∧ lookupToken db (pyStrip v) = some row ∧ ¬ row.expires_at < now
      ∧ deviceRecorded db (pyStrip v) (deviceHash ip (safe_get body PostBody.userAgent)
          (safe_get body PostBody.screenSize) (safe_get body PostBody.timezone)) = false
      ∧ ¬ 2 ≤ countDistinctDevices db (pyStrip v)
      ∧ verifyPost db now v ip body =
          (.okIdentity (deviceHash ip (safe_get body PostBody.userAgent)
            (safe_get body PostBody.screenSize) (safe_get body PostBody.timezone)),
           { db with device_access := db.device_access ++
               [{ token := (pyStrip v),
                  device_hash := deviceHash ip (safe_get body PostBody.userAgent)
                    (safe_get body PostBody.screenSize) (safe_get body PostBody.timezone),
                  ip := ip, user_agent := safe_get body PostBody.userAgent,
                  screen_size := safe_get body PostBody.screenSize,
                  timezone := safe_get body PostBody.timezone, timestamp := now }] })) := by
  by_cases hv : (pyStrip v) = ""
  · exact Or.inl ⟨hv, by simp [verifyPost, hv]⟩
  · cases hlook : lookupToken db (pyStrip v) with
    | none =>
      exact Or.inr (Or.inl ⟨hv, rfl, by simp [verifyPost, hv, hlook]⟩)
    | some row =>
      by_cases hexp : row.expires_at < now
      · exact Or.inr (Or.inr (Or.inl ⟨row, hv, rfl, hexp,
          by simp [verifyPost, hv, hlook, hexp]⟩))
      · cases hrec : deviceRecorded db (pyStrip v) (deviceHash ip (safe_get body PostBody.userAgent)
            (safe_get body PostBody.screenSize) (safe_get body PostBody.timezone)) with
        | true =>
          exact Or.inr (Or.inr (Or.inr (Or.inl ⟨row, hv, rfl, hexp, rfl,
            by simp [verifyPost, hv, hlook, hexp, hrec]⟩)))
        | false =>
          by_cases hcnt : 2 ≤ countDistinctDevices db (pyStrip v)
          · exact Or.inr (Or.inr (Or.inr (Or.inr (Or.inl ⟨row, hv, rfl, hexp, rfl, hcnt,
              by simp [verifyPost, hv, hlook, hexp, hrec, hcnt]⟩))))
          · exact Or.inr (Or.inr (Or.inr (Or.inr (Or.inr ⟨row, hv, rfl, hexp, rfl, hcnt,
              by simp [verifyPost, hv, hlook, hexp, hrec, hcnt]⟩))))

/- ======================= admin route case analyses ======================= -/

theorem admin_add_cases (cfg : Config) (db : DB) (now : Nat) (hdr tf df : String) :
    (∃ m, admin_guard cfg hdr = some m
        ∧ admin_add_device cfg db now hdr tf df = (.forbidden m, db))
  ∨ (admin_guard cfg hdr = none ∧ ((pyStrip tf) = "" ∨ (pyStrip df) = "")
        ∧ admin_add_device cfg db now hdr tf df = (.badRequest, db))
  ∨ (admin_guard cfg hdr = none ∧ ¬((pyStrip tf) = "" ∨ (pyStrip df) = "")
        ∧ 2 ≤ countDistinctDevices db (pyStrip tf)
        ∧ admin_add_device cfg db now hdr tf df = (.atCeiling, db))
  ∨ (admin_guard cfg hdr = none ∧ ¬((pyStrip tf) = "" ∨ (pyStrip df) = "")
        ∧ ¬ 2 ≤ countDistinctDevices db (pyStrip tf)
        ∧ deviceRecorded db (pyStrip tf) (pyStrip df) = true
        ∧ admin_add_device cfg db now hdr tf df = (.added, db))
  ∨ (admin_guard cfg hdr = none ∧ ¬((pyStrip tf) = "" ∨ (pyStrip df) = "")
        ∧ ¬ 2 ≤ countDistinctDevices db (pyStrip tf)
        ∧ deviceRecorded db (pyStrip tf) (pyStrip df) = false
        ∧ admin_add_device cfg db now hdr tf df =
            (.added, { db with device_access := db.device_access ++
               [{ token := (pyStrip tf), device_hash := (pyStrip df), ip := "admin", user_agent := "",
                  screen_size := "", timezone := "", timestamp := now }] })) := by
  cases hg : admin_guard cfg hdr with
  | some m => exact Or.inl ⟨m, rfl, by simp [admin_add_device, hg]⟩
  | none =>
    by_cases hemp : (pyStrip tf) = "" ∨ (pyStrip df) = ""
    · exact Or.inr (Or.inl ⟨rfl, hemp, by simp [admin_add_device, hg, hemp]⟩)
    · by_cases hcnt : 2 ≤ countDistinctDevices db (pyStrip tf)
      · exact Or.inr (Or.inr (Or.inl ⟨rfl, hemp, hcnt,
          by simp [admin_add_device, hg, hemp, hcnt]⟩))
      · cases hrec : deviceRecorded db (pyStrip tf) (pyStrip df) with
        | true =>
          exact Or.inr (Or.inr (Or.inr (Or.inl ⟨rfl, hemp, hcnt, rfl,
            by simp [admin_add_device, hg, hemp, hcnt, hrec]⟩)))
        | false =>
          exact Or.inr (Or.inr (Or.inr (Or.inr ⟨rfl, hemp, hcnt, rfl,
            by simp [admin_add_device, hg, hemp, hcnt, hrec]⟩)))

theorem admin_kick_cases (cfg : Config) (db : DB) (hdr tf df : String) :
    (∃ m, admin_guard cfg hdr = some m
        ∧ admin_kick cfg db hdr tf df = (.forbidden m, db))
  ∨ (admin_guard cfg hdr = none ∧ ((pyStrip tf) = "" ∨ (pyStrip df) = "")
        ∧ admin_kick cfg db hdr tf df = (.badRequest, db))
  ∨ (admin_guard cfg hdr = none ∧ ¬((pyStrip tf) = "" ∨ (pyStrip df) = "")
        ∧ admin_kick cfg db hdr tf df =
            (.kicked, { db with device_access := db.device_access.filter (fun r => !(r.token == (pyStrip tf) && r.device_hash == (pyStrip df))) })) := by
  cases hg : admin_guard cfg hdr with
  | some m => exact Or.inl ⟨m, rfl, by simp [admin_kick, hg]⟩
  | none =>
    by_cases hemp : (pyStrip tf) = "" ∨ (pyStrip df) = ""
    · exact Or.inr (Or.inl ⟨rfl, hemp, by simp [admin_kick, hg, hemp]⟩)
    · exact Or.inr (Or.inr ⟨rfl, hemp, by simp [admin_kick, hg, hemp]⟩)

/- ======================= payment_callback lemmas ======================= -/

theorem payment_callback_device_access (cfg : Config) (db : DB) (now : Nat) (ft : String)
    (mux : MuxOutcome) (data : CallbackData) :
    ((payment_callback cfg db now ft mux data).2).device_access = db.device_access := by
  unfold payment_callback
  cases callbackEmail data.order_id with
  | none => rfl
  | some email =>
    by_cases h1 : pyOrOpt data.status data.status_id ≠ some "1" ∨ email = ""
    · simp [h1]
    · by_cases h2 : (lookupToken db ft).isSome <;> simp [h1, h2]

theorem payment_callback_tokens (cfg : Config) (db : DB) (now : Nat) (ft : String)
    (mux : MuxOutcome) (data : CallbackData) :
    ((payment_callback cfg db now ft mux data).2).tokens = db.tokens
    ∨ ∃ r, ((payment_callback cfg db now ft mux data).2).tokens = db.tokens ++ [r] := by
  unfold payment_callback
  cases callbackEmail data.order_id with
  | none => exact Or.inl rfl
  | some email =>
    by_cases h1 : pyOrOpt data.status data.status_id ≠ some "1" ∨ email = ""
    · exact Or.inl (by simp [h1])
    · by_cases h2 : (lookupToken db ft).isSome
      · exact Or.inl (by simp [h1, h2])
      · refine Or.inr ⟨⟨ft, email, generate_expiry 7 now, some (create_mux_stream_if_needed cfg mux).1, (create_mux_stream_if_needed cfg mux).2⟩, ?_⟩
        simp [h1, h2]

/-- Success path of payment_callback, shared by several claim theorems. -/
theorem payment_callback_success (cfg : Config) (db : DB) (now : Nat) (ft : String)
    (mux : MuxOutcome) (data : CallbackData) (e : String)
    (hst : pyOrOpt data.status data.status_id = some "1")
    (hem : callbackEmail data.order_id = some e) (he : e ≠ "")
    (hfresh : lookupToken db ft = none) :
    payment_callback cfg db now ft mux data =
      (.okIssued ft,
       { db with
           tokens := db.tokens ++
             [{ token := ft, email := e, expires_at := generate_expiry 7 now,
                playback_id := some (create_mux_stream_if_needed cfg mux).1,
                stream_key := (create_mux_stream_if_needed cfg mux).2 }],
           email_tokens := emailUpsert db.email_tokens e ft }) := by
  have h1 : ¬(pyOrOpt data.status data.status_id ≠ some "1" ∨ e = "") := by
    simp [hst, he]
  have h2 : (lookupToken db ft).isSome = false := by simp [hfresh]
  simp only [payment_callback, hem]
  rw [if_neg h1]
  simp [h2]

/-- Failure path of payment_callback: wrong status or unrecoverable email. -/
theorem payment_callback_failure (cfg : Config) (db : DB) (now : Nat) (ft : String)
    (mux : MuxOutcome) (data : CallbackData)
    (h : pyOrOpt data.status data.status_id ≠ some "1"
         ∨ callbackEmail data.order_id = none
         ∨ callbackEmail data.order_id = some "") :
    payment_callback cfg db now ft mux data = (.badPayload, db) := by
  unfold payment_callback
  cases hem : callbackEmail data.order_id with
  | none => rfl
  | some email =>
    rcases h with h | h | h
    · simp [h]
    · rw [hem] at h; cases h
    · rw [hem] at h
      have : email = "" := by injection h
      simp [this]

/- ======================= Step-machine lemmas ======================= -/

theorem verifyPost_ceiling_preserved (db : DB) (now : Nat) (v ip : String)
    (body : Option PostBody) (hdb : ∀ t, countDistinctDevices db t ≤ 2) :
    ∀ t, countDistinctDevices (verifyPost db now v ip body).2 t ≤ 2 := by
  intro t
  rcases verifyPost_cases db now v ip body with
    ⟨_, h⟩ | ⟨_, _, h⟩ | ⟨_, _, _, _, h⟩ | ⟨_, _, _, _, _, h⟩
      | ⟨_, _, _, _, _, _, h⟩ | ⟨_, _, _, _, _, hcnt, h⟩
  · rw [h]; exact hdb t
  · rw [h]; exact hdb t
  · rw [h]; exact hdb t
  · rw [h]; exact hdb t
  · rw [h]; exact hdb t
  · simp only [h]
    by_cases hteq : (pyStrip v) = t
    · subst hteq
      have hlt : countD db.device_access (pyStrip v) ≤ 1 := by
        unfold countDistinctDevices at hcnt
        omega
      unfold countDistinctDevices
      dsimp only
      exact le_trans (countD_append_le _ _ _) (by omega)
    · unfold countDistinctDevices
      dsimp only
      refine le_trans (le_of_eq (countD_append_ne _ _ _ ?_)) (hdb t)
      simp [hteq]

theorem admin_add_ceiling_preserved (cfg : Config) (db : DB) (now : Nat) (hdr tf df : String)
    (hdb : ∀ t, countDistinctDevices db t ≤ 2) :
    ∀ t, countDistinctDevices (admin_add_device cfg db now hdr tf df).2 t ≤ 2 := by
  intro t
  rcases admin_add_cases cfg db now hdr tf df with
    ⟨m, _, h⟩ | ⟨_, _, h⟩ | ⟨_, _, _, h⟩ | ⟨_, _, _, _, h⟩ | ⟨_, _, hcnt, _, h⟩
  · rw [h]; exact hdb t
  · rw [h]; exact hdb t
  · rw [h]; exact hdb t
  · rw [h]; exact hdb t
  · simp only [h]
    by_cases hteq : (pyStrip tf) = t
    · subst hteq
      have hlt : countD db.device_access (pyStrip tf) ≤ 1 := by
        unfold countDistinctDevices at hcnt
        omega
      unfold countDistinctDevices
      dsimp only
      exact le_trans (countD_append_le _ _ _) (by omega)
    · unfold countDistinctDevices
      dsimp only
      refine le_trans (le_of_eq (countD_append_ne _ _ _ ?_)) (hdb t)
      simp [hteq]

theorem admin_kick_device_sublist (cfg : Config) (db : DB) (hdr tf df : String) :
    ((admin_kick cfg db hdr tf df).2.device_access).Sublist db.device_access := by
  rcases admin_kick_cases cfg db hdr tf df with ⟨m, _, h⟩ | ⟨_, _, h⟩ | ⟨_, _, h⟩
  · rw [h]
  · rw [h]
  · simp only [h]
    exact List.filter_sublist _

theorem step_device_ceiling (cfg : Config) (db : DB) (op : Op)
    (hdb : ∀ t, countDistinctDevices db t ≤ 2) :
    ∀ t, countDistinctDevices (step cfg db op) t ≤ 2 := by
  cases op with
  | callbackReq now ft mux data =>
    intro t
    show countD (payment_callback cfg db now ft mux data).2.device_access t ≤ 2
    rw [payment_callback_device_access]
    exact hdb t
  | watchReq now tok => exact hdb
  | verifyGetReq a b => exact hdb
  | resumeReq a => exact hdb
  | adminLogsReq a => exact hdb
  | verifyPostReq now v ip body => exact verifyPost_ceiling_preserved db now v ip body hdb
  | adminKickReq hdr tf df =>
    intro t
    show countD (admin_kick cfg db hdr tf df).2.device_access t ≤ 2
    exact le_trans (countD_sublist _ _ t (admin_kick_device_sublist cfg db hdr tf df)) (hdb t)
  | adminAddReq now hdr tf df => exact admin_add_ceiling_preserved cfg db now hdr tf df hdb

theorem foldl_step_ceiling (cfg : Config) (ops : List Op) :
    ∀ db, (∀ t, countDistinctDevices db t ≤ 2) →
      ∀ t, countDistinctDevices (ops.foldl (step cfg) db) t ≤ 2 := by
  induction ops with
  | nil => intro db h; exact h
  | cons o os ih => intro db h; exact ih (step cfg db o) (step_device_ceiling cfg db o h)

theorem initDB_ceiling : ∀ t, countDistinctDevices initDB t ≤ 2 := by
  intro t
  show countD [] t ≤ 2
  rw [countD_nil]
  exact Nat.zero_le 2

theorem verifyPost_refuses_at_ceiling (db : DB) (now : Nat) (v ip : String)
    (body : Option PostBody) (h2 : 2 ≤ countDistinctDevices db (pyStrip v)) :
    (verifyPost db now v ip body).2 = db := by
  rcases verifyPost_cases db now v ip body with
    ⟨_, h⟩ | ⟨_, _, h⟩ | ⟨_, _, _, _, h⟩ | ⟨_, _, _, _, _, h⟩
      | ⟨_, _, _, _, _, _, h⟩ | ⟨_, _, _, _, _, hcnt, h⟩
  · rw [h]
  · rw [h]
  · rw [h]
  · rw [h]
  · rw [h]
  · exact absurd h2 hcnt

theorem admin_add_refuses_at_ceiling (cfg : Config) (db : DB) (now : Nat) (hdr tf df : String)
    (h2 : 2 ≤ countDistinctDevices db (pyStrip tf)) :
    (admin_add_device cfg db now hdr tf df).2 = db := by
  rcases admin_add_cases cfg db now hdr tf df with
    ⟨m, _, h⟩ | ⟨_, _, h⟩ | ⟨_, _, _, h⟩ | ⟨_, _, _, _, h⟩ | ⟨_, _, hcnt, _, h⟩
  · rw [h]
  · rw [h]
  · rw [h]
  · rw [h]
  · exact absurd h2 hcnt

theorem step_no_insert_sublist (cfg : Config) (db : DB) (op : Op)
    (h : mayInsertDevice op = false) :
    ((step cfg db op).device_access).Sublist db.device_access := by
  cases op with
  | callbackReq now ft mux data =>
    show ((payment_callback cfg db now ft mux data).2.device_access).Sublist db.device_access
    rw [payment_callback_device_access]
  | watchReq now tok => exact List.Sublist.refl _
  | verifyGetReq a b => exact List.Sublist.refl _
  | resumeReq a => exact List.Sublist.refl _
  | adminLogsReq a => exact List.Sublist.refl _
  | verifyPostReq now v ip body => simp [mayInsertDevice] at h
  | adminKickReq hdr tf df => exact admin_kick_device_sublist cfg db hdr tf df
  | adminAddReq now hdr tf df => simp [mayInsertDevice] at h

/- ======================= verifyPost evaluation and idempotence ======================= -/

theorem verifyPost_eval_recorded (db : DB) (now : Nat) (v ip : String) (body : Option PostBody)
    (row : TokenRow) (hv : (pyStrip v) ≠ "") (hlook : lookupToken db (pyStrip v) = some row)
    (hexp : ¬ row.expires_at < now)
    (hrec : deviceRecorded db (pyStrip v) (deviceHash ip (safe_get body PostBody.userAgent)
        (safe_get body PostBody.screenSize) (safe_get body PostBody.timezone)) = true) :
    verifyPost db now v ip body =
      (.okIdentity (deviceHash ip (safe_get body PostBody.userAgent)
        (safe_get body PostBody.screenSize) (safe_get body PostBody.timezone)), db) := by
  simp [verifyPost, hv, hlook, hexp, hrec]

theorem verifyPost_ok_repeat (db : DB) (now : Nat) (v ip : String) (body : Option PostBody)
    (db₁ : DB) (idH : String)
    (h : verifyPost db now v ip body = (.okIdentity idH, db₁)) :
    verifyPost db₁ now v ip body = (.okIdentity idH, db₁) := by
  rcases verifyPost_cases db now v ip body with
    ⟨hv, heq⟩ | ⟨hv, hlook, heq⟩ | ⟨row, hv, hlook, hexp, heq⟩
      | ⟨row, hv, hlook, hexp, hrec, heq⟩ | ⟨row, hv, hlook, hexp, hrec, hcnt, heq⟩
      | ⟨row, hv, hlook, hexp, hrec, hcnt, heq⟩
  · rw [h] at heq; simp at heq
  · rw [h] at heq; simp at heq
  · rw [h] at heq; simp at heq
  · have hcomb := heq.symm.trans h
    injection hcomb with h1 h2
    injection h1 with h1
    subst h2
    subst h1
    exact heq
  · rw [h] at heq; simp at heq
  · have hcomb := heq.symm.trans h
    injection hcomb with h1 h2
    injection h1 with h1
    subst h2
    subst h1
    exact verifyPost_eval_recorded _ now v ip body row hv hlook hexp
      (deviceRecordedL_append_self _ _)

/- ======================= tokens-table frame lemmas ======================= -/

theorem verifyPost_tokens_unchanged (db : DB) (now : Nat) (v ip : String)
    (body : Option PostBody) : ((verifyPost db now v ip body).2).tokens = db.tokens := by
  rcases verifyPost_cases db now v ip body with
    ⟨_, h⟩ | ⟨_, _, h⟩ | ⟨_, _, _, _, h⟩ | ⟨_, _, _, _, _, h⟩
      | ⟨_, _, _, _, _, _, h⟩ | ⟨_, _, _, _, _, _, h⟩ <;> simp [h]

theorem admin_kick_tokens_unchanged (cfg : Config) (db : DB) (hdr tf df : String) :
    ((admin_kick cfg db hdr tf df).2).tokens = db.tokens := by
  rcases admin_kick_cases cfg db hdr tf df with ⟨m, _, h⟩ | ⟨_, _, h⟩ | ⟨_, _, h⟩ <;> simp [h]

theorem admin_add_tokens_unchanged (cfg : Config) (db : DB) (now : Nat) (hdr tf df : String) :
    ((admin_add_device cfg db now hdr tf df).2).tokens = db.tokens := by
  rcases admin_add_cases cfg db now hdr tf df with
    ⟨m, _, h⟩ | ⟨_, _, h⟩ | ⟨_, _, _, h⟩ | ⟨_, _, _, _, h⟩ | ⟨_, _, _, _, h⟩ <;> simp [h]

/- ======================= email index and order-id lemmas ======================= -/

theorem lookupEmailToken_upsert (l : List (String × String)) (e t : String) :
    lookupEmailToken (emailUpsert l e t) e = some t := by
  have hnone : (l.filter (fun p => p.1 != e)).find? (fun p => p.1 == e) = none := by
    rw [List.find?_eq_none]
    intro p hp
    simp only [List.mem_filter, bne_iff_ne] at hp
    simp [hp.2]
  simp [lookupEmailToken, emailUpsert, List.find?_append, hnone]

theorem string_data_inj {s t : String} (h : s.data = t.data) : s = t := by
  cases s; cases t; exact congrArg String.mk h

theorem callbackEmail_TRX (e : String) : callbackEmail (some ("TRX-" ++ e)) = some e := by
  have hd : ("TRX-" ++ e).data = 'T' :: 'R' :: 'X' :: '-' :: e.data := by
    have h4 : ("TRX-" : String).data = ['T', 'R', 'X', '-'] := rfl
    rw [String.data_append, h4]
    rfl
  simp only [callbackEmail, hd]

/- ======================= watch evaluation ======================= -/

theorem watch_eval_placeholder (db : DB) (now : Nat) (t : String) (row : TokenRow)
    (hlook : lookupToken db t = some row) (hexp : ¬ row.expires_at < now)
    (hpid : row.playback_id = none ∨ row.playback_id = some "") :
    watch db now t = .render "https://stream.mux.com/abc123.m3u8" t := by
  rcases hpid with h | h <;> simp [watch, hlook, hexp, pyStrOr, h]

/- ======================= admin-guard lemmas ======================= -/

theorem admin_guard_denies (cfg : Config) (hdr : String)
    (h : cfg.ADMIN_TOKEN = "" ∨ hdr ≠ cfg.ADMIN_TOKEN) :
    ∃ m, admin_guard cfg hdr = some m := by
  unfold admin_guard
  rcases h with h | h
  · exact ⟨"Admin disabled: missing ADMIN_TOKEN", by simp [h]⟩
  · by_cases h0 : cfg.ADMIN_TOKEN = ""
    · exact ⟨"Admin disabled: missing ADMIN_TOKEN", by simp [h0]⟩
    · exact ⟨"Forbidden", by simp [h0, h]⟩

/- ======================= fingerprint-string lemmas ======================= -/

theorem rawFingerprint_data (ip ua ss tz : String) :
    (rawFingerprint ip ua ss tz).data
      = ip.data ++ '|' :: (ua.data ++ '|' :: (ss.data ++ '|' :: tz.data)) := by
  have hbar : ("|" : String).data = ['|'] := rfl
  simp [rawFingerprint, String.data_append, hbar]

theorem rawFingerprint_ne_of_ip (ip ua ss tz ip₂ : String) (h : ip ≠ ip₂) :
    rawFingerprint ip ua ss tz ≠ rawFingerprint ip₂ ua ss tz := by
  intro he
  apply h
  have hd := congrArg String.data he
  rw [rawFingerprint_data, rawFingerprint_data] at hd
  exact string_data_inj (List.append_cancel_right hd)

theorem rawFingerprint_ne_of_ua (ip ua ss tz ua₂ : String) (h : ua ≠ ua₂) :
    rawFingerprint ip ua ss tz ≠ rawFingerprint ip ua₂ ss tz := by
  intro he
  apply h
  have hd := congrArg String.data he
  rw [rawFingerprint_data, rawFingerprint_data] at hd
  have h1 := List.append_cancel_left hd
  injection h1 with _ h2
  exact string_data_inj (List.append_cancel_right h2)

theorem rawFingerprint_ne_of_ss (ip ua ss tz ss₂ : String) (h : ss ≠ ss₂) :
    rawFingerprint ip ua ss tz ≠ rawFingerprint ip ua ss₂ tz := by
  intro he
  apply h
  have hd := congrArg String.data he
  rw [rawFingerprint_data, rawFingerprint_data] at hd
  have h1 := List.append_cancel_left hd
  injection h1 with _ h2
  have h3 := List.append_cancel_left h2
  injection h3 with _ h4
  exact string_data_inj (List.append_cancel_right h4)

theorem rawFingerprint_ne_of_tz (ip ua ss tz tz₂ : String) (h : tz ≠ tz₂) :
    rawFingerprint ip ua ss tz ≠ rawFingerprint ip ua ss tz₂ := by
  intro he
  apply h
  have hd := congrArg String.data he
  rw [rawFingerprint_data, rawFingerprint_data] at hd
  have h1 := List.append_cancel_left hd
  injection h1 with _ h2
  have h3 := List.append_cancel_left h2
  injection h3 with _ h4
  have h5 := List.append_cancel_left h4
  injection h5 with _ h6
  exact string_data_inj h6

/- ======================= hash-output shape lemmas ======================= -/

theorem natToBytesBE_length (n x : Nat) : (natToBytesBE n x).length = n := by
  simp [natToBytesBE]

theorem natToBytesBE_lt (n x : Nat) : ∀ b ∈ natToBytesBE n x, b < 256 := by
  intro b hb
  simp only [natToBytesBE, List.mem_map, List.mem_range] at hb
  rcases hb with ⟨i, _, rfl⟩
  exact Nat.mod_lt _ (by omega)

theorem sha256Bytes_length (m : List Nat) : (sha256Bytes m).length = 32 := by
  simp [sha256Bytes, natToBytesBE_length]

theorem sha256Bytes_bytes_lt (m : List Nat) : ∀ b ∈ sha256Bytes m, b < 256 := by
  intro b hb
  simp only [sha256Bytes, List.mem_append] at hb
  rcases hb with ((((((h | h) | h) | h) | h) | h) | h) | h <;>
    exact natToBytesBE_lt _ _ b h

theorem bytesVal_lt (l : List Nat) (h : ∀ b ∈ l, b < 256) : bytesVal l < 256 ^ l.length := by
  induction l with
  | nil => simp [bytesVal]
  | cons b bs ih =>
    have hb : b < 256 := h b (List.mem_cons_self _ _)
    have hbs := ih (fun x hx => h x (List.mem_cons_of_mem _ hx))
    simp only [bytesVal, List.length_cons]
    calc b * 256 ^ bs.length + bytesVal bs
        < b * 256 ^ bs.length + 256 ^ bs.length := by omega
      _ = (b + 1) * 256 ^ bs.length := by ring
      _ ≤ 256 * 256 ^ bs.length := Nat.mul_le_mul_right _ (by omega)
      _ = 256 ^ (bs.length + 1) := by rw [pow_succ]; ring

theorem bytesVal_inj (l₁ : List Nat) : ∀ (l₂ : List Nat), l₁.length = l₂.length →
    (∀ b ∈ l₁, b < 256) → (∀ b ∈ l₂, b < 256) →
    bytesVal l₁ = bytesVal l₂ → l₁ = l₂ := by
  induction l₁ with
  | nil =>
    intro l₂ hlen _ _ _
    cases l₂ with
    | nil => rfl
    | cons c cs => simp at hlen
  | cons b bs ih =>
    intro l₂ hlen h₁ h₂ h
    cases l₂ with
    | nil => simp at hlen
    | cons c cs =>
      have hlen' : bs.length = cs.length := by simpa using hlen
      have hb : b < 256 := h₁ b (List.mem_cons_self _ _)
      have hc : c < 256 := h₂ c (List.mem_cons_self _ _)
      have hbsl := bytesVal_lt bs (fun x hx => h₁ x (List.mem_cons_of_mem _ hx))
      have hcsl := bytesVal_lt cs (fun x hx => h₂ x (List.mem_cons_of_mem _ hx))
      simp only [bytesVal] at h
      rw [hlen'] at h hbsl
      have hbc : b = c := by
        rcases Nat.lt_trichotomy b c with hlt | hbceq | hgt
        · exfalso
          have step : b * 256 ^ cs.length + bytesVal bs < c * 256 ^ cs.length + bytesVal cs :=
            calc b * 256 ^ cs.length + bytesVal bs
                < b * 256 ^ cs.length + 256 ^ cs.length := by omega
              _ = (b + 1) * 256 ^ cs.length := by ring
              _ ≤ c * 256 ^ cs.length := Nat.mul_le_mul_right _ (by omega)
              _ ≤ c * 256 ^ cs.length + bytesVal cs := Nat.le_add_right _ _
          exact absurd h (Nat.ne_of_lt step)
        · exact hbceq
        · exfalso
          have step : c * 256 ^ cs.length + bytesVal cs < b * 256 ^ cs.length + bytesVal bs :=
            calc c * 256 ^ cs.length + bytesVal cs
                < c * 256 ^ cs.length + 256 ^ cs.length := by omega
              _ = (c + 1) * 256 ^ cs.length := by ring
              _ ≤ b * 256 ^ cs.length := Nat.mul_le_mul_right _ (by omega)
              _ ≤ b * 256 ^ cs.length + bytesVal bs := Nat.le_add_right _ _
          exact absurd h.symm (Nat.ne_of_lt step)
      subst hbc
      have htl : bytesVal bs = bytesVal cs := by omega
      rw [ih cs hlen' (fun x hx => h₁ x (List.mem_cons_of_mem _ hx))
        (fun x hx => h₂ x (List.mem_cons_of_mem _ hx)) htl]

/- ======================= Claim theorems ======================= -/

/-- C1: in every reachable state of the device_access store, each token has at most 2
distinct device_hash values; the POST /verify handler and the admin add-device handler
refuse the insert (leaving the store unchanged) whenever the distinct count is already
at least 2; and no route other than those two ever adds a device row. -/
theorem C1_device_ceiling :
    (∀ cfg ops t, countDistinctDevices (runOps cfg ops) t ≤ 2)
    ∧ (∀ db now v ip body, 2 ≤ countDistinctDevices db (pyStrip v) →
        (verifyPost db now v ip body).2 = db)
    ∧ (∀ cfg db now hdr tf df, 2 ≤ countDistinctDevices db (pyStrip tf) →
        (admin_add_device cfg db now hdr tf df).2 = db)
    ∧ (∀ cfg db op, mayInsertDevice op = false →
        ((step cfg db op).device_access).Sublist db.device_access) := by
  refine ⟨?_, ?_, ?_, ?_⟩
  · intro cfg ops t
    exact foldl_step_ceiling cfg ops initDB initDB_ceiling t
  · intro db now v ip body h2
    exact verifyPost_refuses_at_ceiling db now v ip body h2
  · intro cfg db now hdr tf df h2
    exact admin_add_refuses_at_ceiling cfg db now hdr tf df h2
  · intro cfg db op h
    exact step_no_insert_sublist cfg db op h

theorem C1_device_ceiling_witness :
    2 ≤ countDistinctDevices dbTwo ((pyStrip "t"))
    ∧ (verifyPost dbTwo 5 "t" "ip" none).2 = dbTwo
    ∧ (admin_add_device cfgAdm dbTwo 5 "secret" "t" "d3").2 = dbTwo
    ∧ ((step cfgAdm dbTwo (.adminKickReq "secret" "t" "d1")).device_access).Sublist
        dbTwo.device_access :=
  ⟨by decide,
   C1_device_ceiling.2.1 dbTwo 5 "t" "ip" none (by decide),
   C1_device_ceiling.2.2.1 cfgAdm dbTwo 5 "secret" "t" "d3" (by decide),
   C1_device_ceiling.2.2.2 cfgAdm dbTwo (.adminKickReq "secret" "t" "d1") (by decide)⟩

/-- C2 (code bug): the GET /verify recheck path never reads expires_at.  With token
"tok1" expired at t=100 and identity "dev1" previously admitted, at time 200 the
recheck still answers status ok, while the POST register-or-verify shape and the watch
page both reject the same token as expired, so the claim that both request shapes are
rejected for an expired token is violated by the recheck path. -/
theorem C2_recheck_expiry_bypass :
    (lookupToken expiredDB "tok1").map TokenRow.expires_at = some 100
    ∧ (100 : Nat) < 200
    ∧ verifyGet expiredDB "tok1" "dev1" = .okStatus
    ∧ (verifyPost expiredDB 200 "tok1" "9.9.9.9" none).1 = .expired
    ∧ watch expiredDB 200 "tok1" = .expired := by
  decide

/-- C3: a callback whose resolved status is the sentinel "1" and whose order_id is
"TRX-" followed by a nonempty email creates exactly one new token row whose expiry is
the issuance time plus 7 days and repoints the email index at the new token id; any
other status, or an order_id from which no email can be recovered, creates nothing and
returns the 400 response. -/
theorem C3_issuance :
    (∀ cfg db now ft mux data e,
        pyOrOpt data.status data.status_id = some "1" →
        data.order_id = some ("TRX-" ++ e) → e ≠ "" →
        lookupToken db ft = none →
        payment_callback cfg db now ft mux data =
          (.okIssued ft,
           { db with
               tokens := db.tokens ++
                 [{ token := ft, email := e, expires_at := generate_expiry 7 now,
                    playback_id := some (create_mux_stream_if_needed cfg mux).1,
                    stream_key := (create_mux_stream_if_needed cfg mux).2 }],
               email_tokens := emailUpsert db.email_tokens e ft }))
    ∧ (∀ l e t, lookupEmailToken (emailUpsert l e t) e = some t)
    ∧ (∀ cfg db now ft mux data,
        (pyOrOpt data.status data.status_id ≠ some "1"
          ∨ callbackEmail data.order_id = none ∨ callbackEmail data.order_id = some "") →
        payment_callback cfg db now ft mux data = (.badPayload, db)) := by
  refine ⟨?_, lookupEmailToken_upsert, payment_callback_failure⟩
  intro cfg db now ft mux data e hst hord he hfresh
  exact payment_callback_success cfg db now ft mux data e hst
    (by rw [hord]; exact callbackEmail_TRX e) he hfresh

theorem C3_issuance_witness :
    pyOrOpt dataOk.status dataOk.status_id = some "1"
    ∧ dataOk.order_id = some ("TRX-" ++ "buyer@x.com")
    ∧ ("buyer@x.com" : String) ≠ ""
    ∧ lookupToken initDB "tok123" = none
    ∧ payment_callback cfgNone initDB 0 "tok123" .apiError dataOk =
        (.okIssued "tok123",
         { initDB with
             tokens := initDB.tokens ++
               [{ token := "tok123", email := "buyer@x.com", expires_at := generate_expiry 7 0,
                  playback_id := some (create_mux_stream_if_needed cfgNone .apiError).1,
                  stream_key := (create_mux_stream_if_needed cfgNone .apiError).2 }],
             email_tokens := emailUpsert initDB.email_tokens "buyer@x.com" "tok123" })
    ∧ payment_callback cfgNone initDB 0 "tok123" .apiError dataFail = (.badPayload, initDB) :=
  ⟨by decide, by decide, by decide, by decide,
   C3_issuance.1 cfgNone initDB 0 "tok123" .apiError dataOk "buyer@x.com"
     (by decide) (by decide) (by decide) (by decide),
   C3_issuance.2.2 cfgNone initDB 0 "tok123" .apiError dataFail (Or.inl (by decide))⟩

/-- C4 (counterexample): with MUX configured and no fixed playback id, a failing video
collaborator call does not abort issuance: the callback still reports success and a
token row is persisted whose stream reference is the placeholder "abc123", refuting the
claim that no token is created when the video call fails. -/
theorem C4_counterexample_mux_failure_still_issues :
    (payment_callback cfgMux initDB 0 "t1" .apiError dataOk).1 = .okIssued "t1"
    ∧ (payment_callback cfgMux initDB 0 "t1" .apiError dataOk).2.tokens =
        [{ token := "t1", email := "buyer@x.com", expires_at := 604800,
           playback_id := some "abc123", stream_key := none }] := by
  decide

/-- C4 (amended): when the video collaborator call fails (MUX credentials configured,
no fixed playback id), issuance does not fail: the callback still creates the token,
substituting the placeholder stream reference "abc123" with no stream key. -/
theorem C4_amended_mux_failure_placeholder :
    ∀ cfg db now ft data e,
      cfg.FIXED_PLAYBACK_ID = "" → cfg.muxConfigured = true →
      pyOrOpt data.status data.status_id = some "1" →
      data.order_id = some ("TRX-" ++ e) → e ≠ "" →
      lookupToken db ft = none →
      payment_callback cfg db now ft .apiError data =
        (.okIssued ft,
         { db with
             tokens := db.tokens ++
               [{ token := ft, email := e, expires_at := generate_expiry 7 now,
                  playback_id := some "abc123", stream_key := none }],
             email_tokens := emailUpsert db.email_tokens e ft }) := by
  intro cfg db now ft data e hfix hmux hst hord he hfresh
  have hmuxres : create_mux_stream_if_needed cfg .apiError = ("abc123", none) := by
    simp [create_mux_stream_if_needed, hfix, hmux]
  have hsucc := payment_callback_success cfg db now ft .apiError data e hst
    (by rw [hord]; exact callbackEmail_TRX e) he hfresh
  rw [hsucc, hmuxres]

theorem C4_amended_witness :
    cfgMux.FIXED_PLAYBACK_ID = ""
    ∧ cfgMux.muxConfigured = true
    ∧ pyOrOpt dataOk.status dataOk.status_id = some "1"
    ∧ dataOk.order_id = some ("TRX-" ++ "buyer@x.com")
    ∧ ("buyer@x.com" : String) ≠ ""
    ∧ lookupToken initDB "t1" = none
    ∧ payment_callback cfgMux initDB 0 "t1" .apiError dataOk =
        (.okIssued "t1",
         { initDB with
             tokens := initDB.tokens ++
               [{ token := "t1", email := "buyer@x.com", expires_at := generate_expiry 7 0,
                  playback_id := some "abc123", stream_key := none }],
             email_tokens := emailUpsert initDB.email_tokens "buyer@x.com" "t1" }) :=
  ⟨rfl, rfl, by decide, by decide, by decide, by decide,
   C4_amended_mux_failure_placeholder cfgMux initDB 0 "t1" dataOk "buyer@x.com"
     rfl rfl (by decide) (by decide) (by decide) (by decide)⟩

/-- C5: register-or-verify is idempotent in the fingerprint: a POST /verify that
answered status ok with an identity answers the same ok identity and leaves the store
untouched when repeated with the same raw signal (hence arbitrarily many repeats change
nothing), and a fingerprint already admitted for a live token is re-accepted with no
state change, so the distinct device count stays the same. -/
theorem C5_verify_idempotent :
    (∀ db now v ip body db₁ idH,
        verifyPost db now v ip body = (.okIdentity idH, db₁) →
        verifyPost db₁ now v ip body = (.okIdentity idH, db₁))
    ∧ (∀ db now v ip body row,
        (pyStrip v) ≠ "" → lookupToken db (pyStrip v) = some row → ¬ row.expires_at < now →
        deviceRecorded db (pyStrip v) (deviceHash ip (safe_get body PostBody.userAgent)
          (safe_get body PostBody.screenSize) (safe_get body PostBody.timezone)) = true →
        verifyPost db now v ip body =
          (.okIdentity (deviceHash ip (safe_get body PostBody.userAgent)
            (safe_get body PostBody.screenSize) (safe_get body PostBody.timezone)), db)) :=
  ⟨fun db now v ip body db₁ idH h => verifyPost_ok_repeat db now v ip body db₁ idH h,
   fun db now v ip body row hv hlook hexp hrec =>
     verifyPost_eval_recorded db now v ip body row hv hlook hexp hrec⟩

set_option maxRecDepth 100000 in
theorem C5_verify_idempotent_witness :
    (pyStrip "t") ≠ ""
    ∧ lookupToken dbKL (pyStrip "t") = some tokRowT
    ∧ ¬ tokRowT.expires_at < 10
    ∧ deviceRecorded dbKL (pyStrip "t")
        (deviceHash "1.2.3.4" (safe_get (some bodyKL) PostBody.userAgent)
          (safe_get (some bodyKL) PostBody.screenSize)
          (safe_get (some bodyKL) PostBody.timezone)) = true
    ∧ verifyPost dbKL 10 "t" "1.2.3.4" (some bodyKL) =
        (.okIdentity (deviceHash "1.2.3.4" (safe_get (some bodyKL) PostBody.userAgent)
          (safe_get (some bodyKL) PostBody.screenSize)
          (safe_get (some bodyKL) PostBody.timezone)), dbKL) :=
  ⟨by decide, by decide, by decide, by decide,
   C5_verify_idempotent.2 dbKL 10 "t" "1.2.3.4" (some bodyKL) tokRowT
     (by decide) (by decide) (by decide) (by decide)⟩

set_option maxHeartbeats 1000000 in
/-- C6 (counterexample): SHA-256 has finitely many possible outputs while sourceAddress
ranges over infinitely many strings, so by pigeonhole two different sourceAddress values
with all other fields fixed share the same device identity: a change of a single field
does not always change the identity. -/
theorem C6_counterexample_collision :
    ∃ ip₁ ip₂ : String, ip₁ ≠ ip₂
      ∧ deviceHash ip₁ "UA" "SS" "TZ" = deviceHash ip₂ "UA" "SS" "TZ" := by
  have key : ∀ F : Nat → Nat, (∀ n, F n < 256 ^ 32) → ∃ m m', m ≠ m' ∧ F m = F m' := by
    intro F hF
    obtain ⟨m, m', hne, heq⟩ := Finite.exists_ne_map_eq_of_infinite
      (fun n : Nat => (⟨F n, hF n⟩ : Fin (256 ^ 32)))
    exact ⟨m, m', hne, congrArg Fin.val heq⟩
  obtain ⟨m, m', hne, hv⟩ := key
    (fun n => bytesVal (sha256Bytes (strBytes (rawFingerprint (ipRep n) "UA" "SS" "TZ"))))
    (fun n => by
      have hlt := bytesVal_lt (sha256Bytes (strBytes (rawFingerprint (ipRep n) "UA" "SS" "TZ")))
        (sha256Bytes_bytes_lt _)
      rwa [sha256Bytes_length] at hlt)
  refine ⟨ipRep m, ipRep m', ?_, ?_⟩
  · intro hip
    apply hne
    have hdata : List.replicate m 'a' = List.replicate m' 'a' := congrArg String.data hip
    have hlenr := congrArg List.length hdata
    simpa using hlenr
  · have hlists := bytesVal_inj _ _
      (by rw [sha256Bytes_length, sha256Bytes_length])
      (sha256Bytes_bytes_lt _) (sha256Bytes_bytes_lt _) hv
    show sha256hex (rawFingerprint (ipRep m) "UA" "SS" "TZ")
        = sha256hex (rawFingerprint (ipRep m') "UA" "SS" "TZ")
    unfold sha256hex
    rw [hlists]

set_option maxRecDepth 100000 in
/-- C6 (amended): the device identity is SHA-256 of the order-sensitive concatenation
ip|ua|ss|tz; identical fields always yield an identical identity, changing any single
field changes the concatenated input string (so identities differ unless the two inputs
collide under SHA-256), and at the spec scenario, changing only the time zone from
Asia/Kuala_Lumpur to UTC changes the identity. -/
theorem C6_amended_fingerprint :
    (∀ ip ua ss tz ip₂ ua₂ ss₂ tz₂, ip = ip₂ → ua = ua₂ → ss = ss₂ → tz = tz₂ →
        deviceHash ip ua ss tz = deviceHash ip₂ ua₂ ss₂ tz₂)
    ∧ (∀ ip ua ss tz ip₂, ip ≠ ip₂ → rawFingerprint ip ua ss tz ≠ rawFingerprint ip₂ ua ss tz)
    ∧ (∀ ip ua ss tz ua₂, ua ≠ ua₂ → rawFingerprint ip ua ss tz ≠ rawFingerprint ip ua₂ ss tz)
    ∧ (∀ ip ua ss tz ss₂, ss ≠ ss₂ → rawFingerprint ip ua ss tz ≠ rawFingerprint ip ua ss₂ tz)
    ∧ (∀ ip ua ss tz tz₂, tz ≠ tz₂ → rawFingerprint ip ua ss tz ≠ rawFingerprint ip ua ss tz₂)
    ∧ deviceHash "1.2.3.4" "UA1" "1920x1080" "Asia/Kuala_Lumpur"
        ≠ deviceHash "1.2.3.4" "UA1" "1920x1080" "UTC" := by
  refine ⟨?_, rawFingerprint_ne_of_ip, rawFingerprint_ne_of_ua,
    rawFingerprint_ne_of_ss, rawFingerprint_ne_of_tz, ?_⟩
  · intro ip ua ss tz ip₂ ua₂ ss₂ tz₂ h1 h2 h3 h4
    rw [h1, h2, h3, h4]
  · decide

theorem C6_amended_fingerprint_witness :
    deviceHash "a" "b" "c" "d" = deviceHash "a" "b" "c" "d"
    ∧ ("UA1" : String) ≠ "UA2"
    ∧ rawFingerprint "1.2.3.4" "UA1" "SS" "TZ" ≠ rawFingerprint "1.2.3.4" "UA2" "SS" "TZ" :=
  ⟨C6_amended_fingerprint.1 "a" "b" "c" "d" "a" "b" "c" "d" rfl rfl rfl rfl,
   by decide,
   C6_amended_fingerprint.2.2.1 "1.2.3.4" "UA1" "SS" "TZ" "UA2" (by decide)⟩

/-- C7: admin operations fail closed: with no ADMIN_TOKEN configured, or with a header
different from the configured token, the guard aborts with 403 and the logs, kick and
add-device handlers all answer 403 without reading or writing the device ledger; when a
secret is configured the guard passes exactly for the matching header. -/
theorem C7_admin_fail_closed :
    (∀ cfg db now hdr tf df,
        cfg.ADMIN_TOKEN = "" ∨ hdr ≠ cfg.ADMIN_TOKEN →
        ∃ m, admin_guard cfg hdr = some m
          ∧ admin_logs cfg db hdr = .forbidden m
          ∧ admin_kick cfg db hdr tf df = (.forbidden m, db)
          ∧ admin_add_device cfg db now hdr tf df = (.forbidden m, db))
    ∧ (∀ cfg hdr, cfg.ADMIN_TOKEN ≠ "" → hdr = cfg.ADMIN_TOKEN →
        admin_guard cfg hdr = none) := by
  constructor
  · intro cfg db now hdr tf df h
    obtain ⟨m, hm⟩ := admin_guard_denies cfg hdr h
    exact ⟨m, hm, by simp [admin_logs, hm], by simp [admin_kick, hm],
      by simp [admin_add_device, hm]⟩
  · intro cfg hdr h0 hh
    simp [admin_guard, h0, hh]

theorem C7_admin_fail_closed_witness :
    (cfgNone.ADMIN_TOKEN = "" ∨ ("x" : String) ≠ cfgNone.ADMIN_TOKEN)
    ∧ (∃ m, admin_guard cfgNone "x" = some m
        ∧ admin_logs cfgNone dbTwo "x" = .forbidden m
        ∧ admin_kick cfgNone dbTwo "x" "t" "d1" = (.forbidden m, dbTwo)
        ∧ admin_add_device cfgNone dbTwo 0 "x" "t" "d1" = (.forbidden m, dbTwo))
    ∧ admin_guard cfgAdm "secret" = none :=
  ⟨Or.inl rfl,
   C7_admin_fail_closed.1 cfgNone dbTwo 0 "x" "t" "d1" (Or.inl rfl),
   C7_admin_fail_closed.2 cfgAdm "secret" (by decide) rfl⟩

/-- C8: tokens are immutable once created: every request either leaves the tokens table
exactly as it was, or is the payment callback and appends a single new row; existing
rows (email, expires_at, playback_id, stream_key) are never updated and never deleted,
and no route other than the callback writes the tokens table. -/
theorem C8_tokens_immutable :
    ∀ cfg db op,
      (step cfg db op).tokens = db.tokens
      ∨ (isCallbackOp op = true ∧ ∃ r, (step cfg db op).tokens = db.tokens ++ [r]) := by
  intro cfg db op
  cases op with
  | callbackReq now ft mux data =>
    rcases payment_callback_tokens cfg db now ft mux data with h | ⟨r, h⟩
    · exact Or.inl h
    · exact Or.inr ⟨rfl, r, h⟩
  | watchReq now tok => exact Or.inl rfl
  | verifyGetReq a b => exact Or.inl rfl
  | verifyPostReq now v ip body => exact Or.inl (verifyPost_tokens_unchanged db now v ip body)
  | resumeReq a => exact Or.inl rfl
  | adminLogsReq a => exact Or.inl rfl
  | adminKickReq hdr tf df => exact Or.inl (admin_kick_tokens_unchanged cfg db hdr tf df)
  | adminAddReq now hdr tf df => exact Or.inl (admin_add_tokens_unchanged cfg db now hdr tf df)

/-- C9: POST /verify never rejects a request over its body: any body (absent, unparsable
or with missing fields) behaves exactly like the body whose missing fields are the empty
string, and with a token present in the query string the outcome is always one of the
normal admission outcomes (invalid token, expired, locked, or ok with the fingerprint of
the defaulted fields) — never a body-related BadRequest. -/
theorem C9_verify_body_lenient :
    ∀ db now v ip body, (pyStrip v) ≠ "" →
      verifyPost db now v ip body
        = verifyPost db now v ip (some
            { userAgent := some (safe_get body PostBody.userAgent),
              screenSize := some (safe_get body PostBody.screenSize),
              timezone := some (safe_get body PostBody.timezone) })
      ∧ ((verifyPost db now v ip body).1 = .invalidToken
        ∨ (verifyPost db now v ip body).1 = .expired
        ∨ (verifyPost db now v ip body).1 = .locked
        ∨ (verifyPost db now v ip body).1 = .okIdentity (deviceHash ip
            (safe_get body PostBody.userAgent) (safe_get body PostBody.screenSize)
            (safe_get body PostBody.timezone))) := by
  intro db now v ip body hv
  constructor
  · rfl
  · rcases verifyPost_cases db now v ip body with
      ⟨hv0, h⟩ | ⟨_, _, h⟩ | ⟨_, _, _, _, h⟩ | ⟨_, _, _, _, _, h⟩
        | ⟨_, _, _, _, _, _, h⟩ | ⟨_, _, _, _, _, _, h⟩
    · exact absurd hv0 hv
    · exact Or.inl (by rw [h])
    · exact Or.inr (Or.inl (by rw [h]))
    · exact Or.inr (Or.inr (Or.inr (by rw [h])))
    · exact Or.inr (Or.inr (Or.inl (by rw [h])))
    · exact Or.inr (Or.inr (Or.inr (by rw [h])))

set_option maxRecDepth 100000 in
theorem C9_verify_body_lenient_witness :
    (pyStrip "t") ≠ ""
    ∧ (verifyPost initDB 0 "t" "ip" none
        = verifyPost initDB 0 "t" "ip" (some
            { userAgent := some (safe_get none PostBody.userAgent),
              screenSize := some (safe_get none PostBody.screenSize),
              timezone := some (safe_get none PostBody.timezone) })
      ∧ ((verifyPost initDB 0 "t" "ip" none).1 = .invalidToken
        ∨ (verifyPost initDB 0 "t" "ip" none).1 = .expired
        ∨ (verifyPost initDB 0 "t" "ip" none).1 = .locked
        ∨ (verifyPost initDB 0 "t" "ip" none).1 = .okIdentity (deviceHash "ip"
            (safe_get none PostBody.userAgent) (safe_get none PostBody.screenSize)
            (safe_get none PostBody.timezone)))) :=
  ⟨by decide, C9_verify_body_lenient initDB 0 "t" "ip" none (by decide)⟩

/-- C10: for a token that exists and is not expired but whose stored playback_id is NULL
or the empty string, the watch page does not fail: it substitutes the placeholder id
"abc123" and renders the playback URL for it. -/
theorem C10_watch_placeholder :
    ∀ db now t row,
      lookupToken db t = some row → ¬ row.expires_at < now →
      (row.playback_id = none ∨ row.playback_id = some "") →
      watch db now t = .render "https://stream.mux.com/abc123.m3u8" t :=
  fun db now t row hlook hexp hpid => watch_eval_placeholder db now t row hlook hexp hpid

theorem C10_watch_placeholder_witness :
    lookupToken dbNoPid "tk" = some tokRowNoPid
    ∧ ¬ tokRowNoPid.expires_at < 100
    ∧ (tokRowNoPid.playback_id = none ∨ tokRowNoPid.playback_id = some "")
    ∧ watch dbNoPid 100 "tk" = .render "https://stream.mux.com/abc123.m3u8" "tk" :=
  ⟨by decide, by decide, Or.inl rfl,
   C10_watch_placeholder dbNoPid 100 "tk" tokRowNoPid (by decide) (by decide) (Or.inl rfl)⟩
